import Mathlib

/-!
Verification of the es-midway-admin user module.

The development shallowly embeds the entity, service, controller and
response-envelope layers of the repository. The relational store backing the
TypeORM repository is modelled as a list of records; the DB-managed audit
columns (`createTime`, `updateTime`) and auto-generated ids are storage-layer
concerns outside the embedded behaviour. The external `md5` npm package is
modelled as an arbitrary hash function passed as a parameter, so every theorem
holds for the real hash. TypeScript truthiness of `data.password` (skipping the
hash for `undefined`/empty string) is embedded explicitly, and a thrown
`CustomHttpError` is embedded as `Except.error` carrying its message.
-/

/-- The `User` entity (src/entity/user.ts): `username` and `password` columns,
plus nullable `realname`, `nickname`, `roleId`; nullable/omittable fields are
`Option`, with `none` standing for an absent or null value. -/
structure User where
  id : Nat
  username : String
  password : Option String
  realname : Option String := none
  nickname : Option String := none
  roleId : Option String := none
deriving DecidableEq, Repr

/-- A `where` filter as accepted by the repository API: each given field must
match by equality, absent fields impose no constraint. -/
structure UserFilter where
  id : Option Nat := none
  username : Option String := none
  password : Option String := none
  realname : Option String := none
  nickname : Option String := none
  roleId : Option String := none
deriving DecidableEq, Repr

/-- Whether a record satisfies a `where` filter (equality on every given field). -/
def filterMatches (f : UserFilter) (u : User) : Bool :=
  (match f.id with | none => true | some i => u.id == i) &&
  (match f.username with | none => true | some s => u.username == s) &&
  (match f.password with | none => true | some s => u.password == some s) &&
  (match f.realname with | none => true | some s => u.realname == some s) &&
  (match f.nickname with | none => true | some s => u.nickname == some s) &&
  (match f.roleId with | none => true | some s => u.roleId == some s)

/-- Input of `BaseService.page`: the `page`/`size` fields of the request body,
each possibly absent. -/
structure PageQuery where
  page : Option Nat := none
  size : Option Nat := none
deriving DecidableEq, Repr

/-- The pagination metadata returned by `BaseService.page`. -/
structure Pagination where
  total : Nat
  size : Nat
  page : Nat
deriving DecidableEq, Repr

/-- `BaseService.add` (src/service/base.ts): `this.entity.save(query)` inserts
the record and returns the saved entity. -/
def BaseService.add (query : User) (store : List User) : User × List User :=
  (query, store ++ [query])

/-- Partial update of one record: TypeORM `update(id, partial)` sets only the
columns given in the partial, so `Option` fields of the query that are `none`
leave the stored value untouched. -/
def mergeUpdate (query : User) (u : User) : User :=
  { id := u.id
    username := query.username
    password := query.password <|> u.password
    realname := query.realname <|> u.realname
    nickname := query.nickname <|> u.nickname
    roleId := query.roleId <|> u.roleId }

/-- `BaseService.update` (src/service/base.ts):
`this.entity.update(query.id, query)` applies the partial update to every
record whose id matches `query.id`. -/
def BaseService.update (query : User) (store : List User) : List User :=
  store.map fun u => if u.id == query.id then mergeUpdate query u else u

/-- `BaseService.info` (src/service/base.ts): `findOne({ where: data })`
returns the first matching record, or null (`none`). -/
def BaseService.info (data : UserFilter) (store : List User) : Option User :=
  store.find? (filterMatches data)

/-- `BaseService.page` (src/service/base.ts): defaults `page = 1`, `size = 10`,
then `findAndCount({ where: \x7b\x7d, take: size, skip: (page - 1) * size })`;
returns the slice and pagination metadata with the full unfiltered count. -/
def BaseService.page (data : PageQuery) (store : List User) :
    List User × Pagination :=
  let page := data.page.getD 1
  let size := data.size.getD 10
  ((store.drop ((page - 1) * size)).take size,
   { total := store.length, size := size, page := page })

/-- `BaseService.list` (src/service/base.ts): `find({ where: data })`; with no
argument (`none`) the filter is absent and every record is returned. -/
def BaseService.list (data : Option UserFilter) (store : List User) :
    List User :=
  match data with
  | none => store
  | some f => store.filter (filterMatches f)

/-- The truthiness test `if (data.password)` applied in `UserService.add` and
`UserService.update` (src/service/user.ts): false exactly for an absent
(undefined/null) or empty-string password; when true the password field is
replaced by its hash. -/
def hashPassword (md5 : String → String) (data : User) : User :=
  match data.password with
  | none => data
  | some pw => if pw = "" then data else { data with password := some (md5 pw) }

/-- `UserService.add` (src/service/user.ts): looks the username up; if a user
exists it throws `CustomHttpError` with message 用户已存在 before touching the
store; otherwise it hashes a truthy password and delegates to the generic add. -/
def UserService.add (md5 : String → String) (data : User) (store : List User) :
    Except String User × List User :=
  match store.find? (fun u => u.username == data.username) with
  | some _ => (Except.error ("用户已存在"), store)
  | none =>
      let r := BaseService.add (hashPassword md5 data) store
      (Except.ok r.1, r.2)

/-- `UserService.update` (src/service/user.ts): hashes a truthy password, then
delegates to the generic update. -/
def UserService.update (md5 : String → String) (data : User)
    (store : List User) : List User :=
  BaseService.update (hashPassword md5 data) store

/-- `DEFAULT_SUCCESS_CODE` (src/utils/result.ts). -/
def DEFAULT_SUCCESS_CODE : Nat := 200

/-- `DEFAULT_ERROR_CODE` (src/utils/result.ts). -/
def DEFAULT_ERROR_CODE : Nat := 900

/-- The `IResult` option object (src/utils/result.ts): each of `data`, `code`,
`message` may be absent (`none`). For `data`, an absent field and an explicit
null both yield null in the envelope, so both are `none`. -/
structure IResult (α : Type) where
  data : Option α := none
  code : Option Nat := none
  message : Option String := none

/-- A fully-built response envelope `{ code, data, message }`; `data = none`
models the JSON null. -/
structure ResultEnv (α : Type) where
  code : Nat
  data : Option α
  message : String
deriving DecidableEq

/-- `Result.success` (src/utils/result.ts): destructures the option with
defaults `data = null`, `code = DEFAULT_SUCCESS_CODE`, `message = 'success'`. -/
def Result.success {α : Type} (option : IResult α) : ResultEnv α :=
  { code := option.code.getD DEFAULT_SUCCESS_CODE
    data := option.data
    message := option.message.getD ("success") }

/-- `Result.error` (src/utils/result.ts): destructures the option with
defaults `data = null`, `code = DEFAULT_ERROR_CODE`, `message = 'error'`. -/
def Result.error {α : Type} (option : IResult α) : ResultEnv α :=
  { code := option.code.getD DEFAULT_ERROR_CODE
    data := option.data
    message := option.message.getD ("error") }

/-- `BaseController.success` (src/controller/base.ts):
`Result.success({ data, ...option })` — the spread puts the option's own
fields after the positional data, so a `data` field of the option wins. -/
def BaseController.success {α : Type} (data : Option α) (option : IResult α) :
    ResultEnv α :=
  Result.success { data := option.data <|> data
                   code := option.code
                   message := option.message }

/-- `BaseController.error` (src/controller/base.ts):
`Result.error({ message, ...option })` — a `message` field of the option wins
over the positional message. -/
def BaseController.error {α : Type} (message : Option String)
    (option : IResult α) : ResultEnv α :=
  Result.error { data := option.data
                 code := option.code
                 message := option.message <|> message }

/-- `UserController.list` (src/controller/user.ts): the handler declares no
`@Body` parameter, so whatever body the request carries is never read; the
service's `list` is invoked with no argument and the result wrapped in the
success envelope. The unused `body` argument records that the endpoint receives
one. -/
def UserController.list (_body : Option UserFilter) (store : List User) :
    ResultEnv (List User) :=
  BaseController.success (some (BaseService.list none store)) {}

/-- `UserController.update` (src/controller/user.ts): runs the service update,
discards its result, and returns `this.success()` with no data. -/
def UserController.update (md5 : String → String) (data : User)
    (store : List User) : ResultEnv User × List User :=
  (BaseController.success none {}, UserService.update md5 data store)

/-- Modelled from the spec: the body of `UserService.login` is not among the
available sources — only its call site `UserController.login` is. Per the spec
(§4.2), login looks the user up by username and compares the hashed submitted
password with the stored one, yielding the user on success and a
message-carrying error on failure. -/
def UserService.login (md5 : String → String) (data : User)
    (store : List User) : Except String User :=
  match store.find? (fun u => u.username == data.username) with
  | none => Except.error ("用户不存在")
  | some u =>
      if u.password == data.password.map md5 then Except.ok u
      else Except.error ("密码错误")

/-- Modelled from the spec: the exception-translation path (the filter that
catches the message-carrying error kind) is not among the available sources;
per the spec (§7) every failure is translated to the error envelope built by
`BaseController.error` from the failure's message alone. -/
def translateFailure (α : Type) (message : String) : ResultEnv α :=
  BaseController.error (some message) {}

/-- `UserController.login` (src/controller/user.ts) composed with the
spec-modelled error translation: a successful service login is wrapped in the
success envelope, a failure surfaces through `translateFailure`. -/
def UserController.login (md5 : String → String) (data : User)
    (store : List User) : ResultEnv User :=
  match UserService.login md5 data store with
  | Except.ok u => BaseController.success (some u) {}
  | Except.error m => translateFailure User m

/-! ### Fixtures used by the witness theorems -/

/-- A concrete instantiation of the abstract hash, used only to evaluate the
theorems on concrete inputs. -/
def demoHash (s : String) : String :=
  String.append ("h:") s

/-- A concrete stored user. -/
def alice : User :=
  { id := 1, username := "a", password := some ("p") }

/-- A second concrete stored user. -/
def bob : User :=
  { id := 2, username := "b", password := some ("q") }

/-! ### Helper lemmas -/

/-- If no stored user carries the submitted username, the duplicate lookup in
`UserService.add` comes back empty. -/
theorem find?_username_eq_none (data : User) (store : List User)
    (hall : ∀ u ∈ store, u.username ≠ data.username) :
    store.find? (fun u => u.username == data.username) = none := by
  rw [List.find?_eq_none]
  intro u hu
  simpa using hall u hu

/-- `UserService.add` on a fresh username hashes the password and appends the
record. -/
theorem UserService.add_fresh (md5 : String → String) (data : User)
    (store : List User) (hall : ∀ u ∈ store, u.username ≠ data.username) :
    UserService.add md5 data store
      = (Except.ok (hashPassword md5 data), store ++ [hashPassword md5 data]) := by
  unfold UserService.add
  rw [find?_username_eq_none data store hall]
  rfl

/-- `UserService.add` on a taken username fails with the duplicate-user error
and returns the store as it was. -/
theorem UserService.add_dup (md5 : String → String) (data : User)
    (store : List User) (hex : ∃ u ∈ store, u.username = data.username) :
    UserService.add md5 data store = (Except.error ("用户已存在"), store) := by
  obtain ⟨u, hu, hname⟩ := hex
  unfold UserService.add
  cases h : store.find? (fun v => v.username == data.username) with
  | none =>
      rw [List.find?_eq_none] at h
      exact absurd (by simpa using hname) (by simpa using h u hu)
  | some v => rfl

/-- A truthy submitted password is replaced by its hash. -/
theorem hashPassword_some (md5 : String → String) (data : User) (pw : String)
    (hpw : data.password = some pw) (hne : pw ≠ "") :
    hashPassword md5 data = { data with password := some (md5 pw) } := by
  unfold hashPassword
  rw [hpw]
  simp [hne]

/-- A falsy (absent or empty) submitted password leaves the record untouched. -/
theorem hashPassword_falsy (md5 : String → String) (data : User)
    (hpw : data.password = none ∨ data.password = some "") :
    hashPassword md5 data = data := by
  unfold hashPassword
  cases hpw with
  | inl h => rw [h]
  | inr h => rw [h]; simp

/-- After a generic update whose query carries a definite password, every
record with the query's id stores exactly that password. -/
theorem BaseService.update_id_password (query : User) (store : List User)
    (x : String) (hq : query.password = some x) (u : User)
    (hu : u ∈ BaseService.update query store) (hid : u.id = query.id) :
    u.password = some x := by
  unfold BaseService.update at hu
  obtain ⟨v, hv, hveq⟩ := List.mem_map.mp hu
  by_cases h : v.id == query.id
  · rw [if_pos h] at hveq
    rw [← hveq]
    simp [mergeUpdate, hq]
  · rw [if_neg h] at hveq
    rw [← hveq] at hid
    exact absurd (by simpa using hid) h

/-- A third concrete user, submitted without a password. -/
def carol : User :=
  { id := 3, username := "c", password := none }

/-! ### Claim theorems -/

/-- Claim C1: an `add(data)` call on the user service fails with the
duplicate-user error 用户已存在 and leaves the store unchanged whenever a user
with `data.username` is already stored; when no such user exists, the record
(with its truthy password hashed) is inserted. -/
theorem C1_add_duplicate_guard (md5 : String → String) (data : User)
    (store : List User) :
    ((∃ u ∈ store, u.username = data.username) →
        UserService.add md5 data store = (Except.error ("用户已存在"), store)) ∧
    ((∀ u ∈ store, u.username ≠ data.username) →
        UserService.add md5 data store
          = (Except.ok (hashPassword md5 data),
             store ++ [hashPassword md5 data])) :=
  ⟨UserService.add_dup md5 data store, UserService.add_fresh md5 data store⟩

/-- Claim C1, evaluated: re-adding the stored username `a` fails with
用户已存在 leaving the one-element store unchanged, while a fresh username is
inserted. -/
theorem C1_add_duplicate_guard_witness :
    UserService.add demoHash { alice with id := 9 } [alice]
      = (Except.error ("用户已存在"), [alice]) ∧
    UserService.add demoHash bob [alice]
      = (Except.ok (hashPassword demoHash bob),
         [alice] ++ [hashPassword demoHash bob]) :=
  ⟨(C1_add_duplicate_guard demoHash { alice with id := 9 } [alice]).1
      ⟨alice, List.mem_singleton.mpr rfl, rfl⟩,
   (C1_add_duplicate_guard demoHash bob [alice]).2 (by decide)⟩

/-- Claim C2: an `add(data)` or `update(data)` call on the user service with a
non-empty plaintext password stores `md5(data.password)` in the password field
— for add, in the appended record; for update, in every record carrying the
updated id — and never the plaintext itself (the stored value differs from the
plaintext whenever the hash does). -/
theorem C2_password_stored_hashed (md5 : String → String) (data : User)
    (store : List User) (pw : String) (hpw : data.password = some pw)
    (hne : pw ≠ "") :
    ((∀ u ∈ store, u.username ≠ data.username) →
        (UserService.add md5 data store).2
          = store ++ [{ data with password := some (md5 pw) }]) ∧
    (∀ u ∈ UserService.update md5 data store, u.id = data.id →
        u.password = some (md5 pw)) ∧
    (md5 pw ≠ pw →
        ({ data with password := some (md5 pw) } : User).password ≠ some pw) := by
  have hhash := hashPassword_some md5 data pw hpw hne
  refine ⟨?_, ?_, ?_⟩
  · intro hall
    rw [UserService.add_fresh md5 data store hall, hhash]
  · intro u hu hid
    refine BaseService.update_id_password (hashPassword md5 data) store (md5 pw)
      ?_ u hu ?_
    · rw [hhash]
    · rw [hhash]; exact hid
  · intro hfix
    simpa using hfix
/-- Claim C2, evaluated: adding `alice` (plaintext password `p`) to the empty
store appends a record whose password is the hash of `p`; updating a store
holding `alice` rehashes; and the demo hash of `p` is not `p`. -/
theorem C2_password_stored_hashed_witness :
    (UserService.add demoHash alice []).2
      = [] ++ [{ alice with password := some (demoHash ("p")) }] ∧
    (∀ u ∈ UserService.update demoHash alice [alice, bob], u.id = alice.id →
        u.password = some (demoHash ("p"))) :=
  ⟨(C2_password_stored_hashed demoHash alice [] ("p") rfl (by decide)).1
      (by simp),
   (C2_password_stored_hashed demoHash alice [alice, bob] ("p") rfl
      (by decide)).2.1⟩

/-- Claim C9: an `add(data)` call with an absent or empty-string password and
an untaken username skips the hashing step and stores the record exactly as
submitted. -/
theorem C9_add_skips_hash (md5 : String → String) (data : User)
    (store : List User) (hpw : data.password = none ∨ data.password = some "")
    (hfresh : ∀ u ∈ store, u.username ≠ data.username) :
    UserService.add md5 data store = (Except.ok data, store ++ [data]) := by
  rw [UserService.add_fresh md5 data store hfresh,
      hashPassword_falsy md5 data hpw]

/-- Claim C9, evaluated: adding password-less `carol` past stored `alice`
stores `carol` verbatim. -/
theorem C9_add_skips_hash_witness :
    UserService.add demoHash carol [alice]
      = (Except.ok carol, [alice] ++ [carol]) :=
  C9_add_skips_hash demoHash carol [alice] (Or.inl rfl) (by decide)

/-- Claim C3: `page({page: 2, size: 10})` returns at most 10 records obtained
by skipping `(page - 1) * size = 10` records, with pagination metadata whose
total is the full unfiltered record count and whose size and page echo the
inputs; absent page/size default to 1/10. -/
theorem C3_page_slice (store : List User) :
    (BaseService.page { page := some 2, size := some 10 } store).1.length ≤ 10 ∧
    (BaseService.page { page := some 2, size := some 10 } store).2.total
      = store.length ∧
    (BaseService.page { page := some 2, size := some 10 } store).2.size = 10 ∧
    (BaseService.page { page := some 2, size := some 10 } store).2.page = 2 ∧
    (BaseService.page { page := some 2, size := some 10 } store).1
      = (store.drop ((2 - 1) * 10)).take 10 ∧
    BaseService.page {} store
      = BaseService.page { page := some 1, size := some 10 } store := by
  refine ⟨?_, rfl, rfl, rfl, rfl, rfl⟩
  simp [BaseService.page]

/-- Claim C5: both envelope constructors produce the `{code, data, message}`
shape, defaulting code/data/message to 200/null/'success' for success and
900/null/'error' for error, with explicitly supplied fields overriding the
defaults. -/
theorem C5_result_envelope_defaults (α : Type) (d : α) (c : Nat) (m : String) :
    (Result.success {} : ResultEnv α)
      = { code := 200, data := none, message := "success" } ∧
    (Result.error {} : ResultEnv α)
      = { code := 900, data := none, message := "error" } ∧
    Result.success { data := some d, code := some c, message := some m }
      = { code := c, data := some d, message := m } ∧
    Result.error { data := some d, code := some c, message := some m }
      = { code := c, data := some d, message := m } :=
  ⟨rfl, rfl, rfl, rfl⟩

/-- Claim C6: every failure translated by the error path surfaces as the same
envelope shape with the fixed error code 900 paired with the failure's
human-readable message, and it is exactly the `Result.error` envelope built
from that message. -/
theorem C6_error_path_uniform (α : Type) (m : String) :
    translateFailure α m = { code := 900, data := none, message := m } ∧
    translateFailure α m = Result.error { message := some m } :=
  ⟨rfl, rfl⟩

/-- Claim C8: the `/user/list` handler reads no request body — for every body
it returns the success envelope around the unfiltered list of all stored
users. -/
theorem C8_list_ignores_body (body : Option UserFilter) (store : List User) :
    UserController.list body store
      = { code := 200, data := some store, message := "success" } :=
  rfl

/-- Claim C10: every `/user/update` request gets the success envelope with
null data — the handler discards the service's update result and returns
`success()` with no arguments. -/
theorem C10_update_discards_result (md5 : String → String) (data : User)
    (store : List User) :
    (UserController.update md5 data store).1
      = { code := 200, data := none, message := "success" } :=
  rfl

/-- Claim C7: `info(filter)` returns the first record matching the filter when
one exists — the match preceded only by non-matching records — and null
(`none`) when no record matches. -/
theorem C7_info_first_or_none (f : UserFilter) (store : List User) :
    ((∀ u ∈ store, filterMatches f u = false) →
        BaseService.info f store = none) ∧
    (∀ pre u suf, store = pre ++ u :: suf → filterMatches f u = true →
        (∀ v ∈ pre, filterMatches f v = false) →
        BaseService.info f store = some u) := by
  constructor
  · intro hall
    unfold BaseService.info
    rw [List.find?_eq_none]
    intro x hx
    simp [hall x hx]
  · intro pre u suf hsplit hmatch hpre
    subst hsplit
    unfold BaseService.info
    have hnone : pre.find? (filterMatches f) = none := by
      rw [List.find?_eq_none]
      intro v hv
      simp [hpre v hv]
    rw [List.find?_append, List.find?_cons_of_pos _ hmatch, hnone]
    rfl

/-- Claim C7, evaluated: with `alice` then `bob` stored, the filter on
username `b` skips the non-matching `alice` and returns `bob`, while a filter
on an unknown username returns null. -/
theorem C7_info_first_or_none_witness :
    BaseService.info { username := some ("z") } [alice, bob] = none ∧
    BaseService.info { username := some ("b") } [alice, bob] = some bob :=
  ⟨(C7_info_first_or_none { username := some ("z") } [alice, bob]).1
      (by decide),
   (C7_info_first_or_none { username := some ("b") } [alice, bob]).2
      [alice] bob [] rfl (by decide) (by decide)⟩

/-- Claim C4: when the login lookup finds the user with the submitted
username, a submitted password whose hash equals the stored one yields the
success envelope around that user, and a wrong password yields the generic
error envelope (code 900, null data). -/
theorem C4_login_outcomes (md5 : String → String) (data : User)
    (store : List User) (u : User)
    (hfind : store.find? (fun v => v.username == data.username) = some u) :
    (u.password = data.password.map md5 →
        UserController.login md5 data store
          = { code := 200, data := some u, message := "success" }) ∧
    (u.password ≠ data.password.map md5 →
        (UserController.login md5 data store).code = 900 ∧
        (UserController.login md5 data store).data = none) := by
  constructor
  · intro heq
    simp only [UserController.login, UserService.login, hfind]
    rw [if_pos (beq_iff_eq.mpr heq)]
    rfl
  · intro hne
    simp only [UserController.login, UserService.login, hfind]
    rw [if_neg (by simpa using hne)]
    exact ⟨rfl, rfl⟩

/-- Claim C4, evaluated: against a store holding the hashed form of `alice`'s
password, submitting `alice`'s plaintext succeeds with the success envelope,
and submitting `bob`'s plaintext under the same username gets code 900 with
null data. -/
theorem C4_login_outcomes_witness :
    UserController.login demoHash alice
        [{ alice with password := some (demoHash ("p")) }]
      = { code := 200,
          data := some { alice with password := some (demoHash ("p")) },
          message := "success" } ∧
    (UserController.login demoHash { alice with password := some ("x") }
        [{ alice with password := some (demoHash ("p")) }]).code = 900 :=
  ⟨(C4_login_outcomes demoHash alice
      [{ alice with password := some (demoHash ("p")) }]
      { alice with password := some (demoHash ("p")) } (by decide)).1
      (by decide),
   ((C4_login_outcomes demoHash { alice with password := some ("x") }
      [{ alice with password := some (demoHash ("p")) }]
      { alice with password := some (demoHash ("p")) } (by decide)).2
      (by decide)).1⟩
